import Mathlib

/-!
Verification of the KyuyoBiyori payslip OCR parser
(`backend/app/routers/payslip.py`).

The Python source is shallowly embedded: each helper of the parser becomes a
Lean definition with the same name (modulo naming rules), strings are `String`
(lists of unicode characters), Python `dict`s are insertion-ordered
association lists, Python exceptions (`ValueError` from `_clean_amount`)
become `Except AmtErr`.  The regular expressions of the source are embedded as
bespoke deterministic matching functions reproducing the backtracking
behaviour of each concrete pattern.
-/

namespace Payslip

/-- Errors raised by `_clean_amount` (`ValueError("overflow")` for a cleaned
digit string longer than 9, and the `ValueError` of `int()` otherwise). -/
inductive AmtErr where
  | overflow
  | invalid
deriving DecidableEq, Repr

/-! ### Character helpers -/

/-- Python whitespace (`\s`, `str.strip()`, `re.split(r"\s+")`): ASCII
whitespace plus the ideographic space U+3000. -/
def isPyWs (c : Char) : Bool :=
  c == ' ' || c == '\t' || c == '\n' || c == '\r' || c == '\x0b' || c == '\x0c' || c == '　'

/-- The separator class `[：:\s]` used by `item_amount`/`item_attendance`. -/
def isSepCh (c : Char) : Bool :=
  c == '：' || c == ':' || isPyWs c

/-- `[\d,]` -/
def isDigitComma (c : Char) : Bool := c.isDigit || c == ','

/-- The sign class of `amount_only`: `[\+\-−△▲]`. -/
def isSignPm (c : Char) : Bool :=
  c == '+' || c == '-' || c == '−' || c == '△' || c == '▲'

/-- The sign class of the numeric-token patterns: `[\-−△▲]` (no `+`). -/
def isSignNeg (c : Char) : Bool :=
  c == '-' || c == '−' || c == '△' || c == '▲'

/-! ### `_TRANS_TABLE` / text normalization -/

/-- The entries of `_TRANS_TABLE`: full-width digits, sign, parentheses and
comma map to ASCII; the currency glyphs ￥ and ¥ are deleted. -/
def transPairs : List (Char × List Char) :=
  [('０', ['0']), ('１', ['1']), ('２', ['2']), ('３', ['3']), ('４', ['4']),
   ('５', ['5']), ('６', ['6']), ('７', ['7']), ('８', ['8']), ('９', ['9']),
   ('＋', ['+']), ('－', ['-']), ('（', ['(']), ('）', [')']), ('，', [',']),
   ('￥', []), ('¥', [])]

/-- `str.translate(_TRANS_TABLE)` on one character. -/
def transChar (c : Char) : List Char :=
  match transPairs.find? (fun p => p.1 == c) with
  | some p => p.2
  | none => [c]

/-- `str.translate(_TRANS_TABLE)` on a character list. -/
def transList : List Char → List Char
  | [] => []
  | c :: cs => transChar c ++ transList cs

/-- The Text Normalizer (§4.1): `line.translate(_TRANS_TABLE)`. -/
def normalizeText (s : String) : String := ⟨transList s.data⟩

theorem transChar_outputs : ∀ q ∈ transPairs, ∀ e ∈ q.2, transChar e = [e] := by decide

theorem transChar_fix (c d : Char) (h : d ∈ transChar c) : transChar d = [d] := by
  cases hf : transPairs.find? (fun p => p.1 == c) with
  | none =>
      have hc : transChar c = [c] := by unfold transChar; rw [hf]
      rw [hc, List.mem_singleton] at h
      subst h
      exact hc
  | some p =>
      have hc : transChar c = p.2 := by unfold transChar; rw [hf]
      rw [hc] at h
      exact transChar_outputs p (List.mem_of_find?_eq_some hf) d h

theorem transList_append (xs ys : List Char) :
    transList (xs ++ ys) = transList xs ++ transList ys := by
  induction xs with
  | nil => rfl
  | cons c cs ih => simp [transList, ih]

theorem transList_of_fixed (l : List Char) (h : ∀ d ∈ l, transChar d = [d]) :
    transList l = l := by
  induction l with
  | nil => rfl
  | cons c cs ih =>
      simp only [transList, h c (List.mem_cons_self c cs)]
      simp only [List.singleton_append, List.cons.injEq, true_and]
      exact ih fun d hd => h d (List.mem_cons_of_mem c hd)

theorem transList_idem (l : List Char) : transList (transList l) = transList l := by
  induction l with
  | nil => rfl
  | cons c cs ih =>
      simp only [transList, transList_append]
      rw [transList_of_fixed (transChar c) (fun d hd => transChar_fix c d hd), ih]

/-! ### Generic string utilities -/

/-- Is the first list a leading segment of the second. -/
def startsList : List Char → List Char → Bool
  | [], _ => true
  | _ :: _, [] => false
  | c :: cs, d :: ds => c == d && startsList cs ds

/-- Python substring test (`needle in hay`). -/
def hasSub (needle : List Char) : List Char → Bool
  | [] => needle.isEmpty
  | c :: cs => startsList needle (c :: cs) || hasSub needle cs

def strContains (hay needle : String) : Bool := hasSub needle.data hay.data

def strStarts (hay needle : String) : Bool := startsList needle.data hay.data

def endsWithL (l suffix : List Char) : Bool := startsList suffix.reverse l.reverse

def containsAnyOf (hay : String) (needles : List String) : Bool :=
  needles.any (fun n => strContains hay n)

/-- `str.strip()` (Python whitespace on both ends). -/
def pyStripList (l : List Char) : List Char :=
  ((l.dropWhile isPyWs).reverse.dropWhile isPyWs).reverse

def pyStrip (s : String) : String := ⟨pyStripList s.data⟩

/-- `str.rstrip("：:")`. -/
def rstripColons (s : String) : String :=
  ⟨(s.data.reverse.dropWhile (fun c => c == ':' || c == '：')).reverse⟩

/-- `re.sub(r"\d+$", "", s)`. -/
def dropTrailingDigits (s : String) : String :=
  ⟨(s.data.reverse.dropWhile Char.isDigit).reverse⟩

/-- `re.sub(r"[\d：:]+$", "", s)`. -/
def dropTrailingDigitColons (s : String) : String :=
  ⟨(s.data.reverse.dropWhile (fun c => c.isDigit || c == ':' || c == '：')).reverse⟩

/-- `str.splitlines()` worker (`acc` holds the current line reversed). -/
def splitLinesGo (acc : List Char) : List Char → List String
  | [] => if acc.isEmpty then [] else [⟨acc.reverse⟩]
  | '\r' :: '\n' :: rest => String.mk acc.reverse :: splitLinesGo [] rest
  | '\n' :: rest => String.mk acc.reverse :: splitLinesGo [] rest
  | '\r' :: rest => String.mk acc.reverse :: splitLinesGo [] rest
  | c :: rest => splitLinesGo (c :: acc) rest

/-- `text.splitlines()`. -/
def splitLines (s : String) : List String := splitLinesGo [] s.data

/-- `[t for t in re.split(r"\s+", line) if t]`. -/
def splitWsGo (acc : List Char) : List Char → List String
  | [] => if acc.isEmpty then [] else [⟨acc.reverse⟩]
  | c :: cs =>
      if isPyWs c then
        if acc.isEmpty then splitWsGo [] cs
        else String.mk acc.reverse :: splitWsGo [] cs
      else splitWsGo (c :: acc) cs

def pySplitWs (s : String) : List String := splitWsGo [] s.data

/-! ### Python `int()` -/

def digitsToNat (l : List Char) : Nat :=
  l.foldl (fun n c => n * 10 + (c.toNat - 48)) 0

/-- After an initial digit: further digits, with single underscores allowed
between digits (Python `int` literal grouping). -/
def pyIntDigitsGo : List Char → Bool
  | [] => true
  | '_' :: rest =>
      match rest with
      | c :: cs => c.isDigit && pyIntDigitsGo cs
      | [] => false
  | c :: rest => c.isDigit && pyIntDigitsGo rest

def pyIntVal (l : List Char) : Option Nat :=
  match l with
  | c :: cs =>
      if c.isDigit && pyIntDigitsGo cs then some (digitsToNat (l.filter Char.isDigit))
      else none
  | [] => none

/-- Python `int(s)`: strip whitespace, optional sign, digit run. -/
def pyIntList (l : List Char) : Option Int :=
  let t := pyStripList l
  match t with
  | '+' :: rest => (pyIntVal rest).map (fun n => (n : Int))
  | '-' :: rest => (pyIntVal rest).map (fun n => -(n : Int))
  | _ => (pyIntVal t).map (fun n => (n : Int))

/-! ### `_clean_amount` (the Amount Resolver, §4.2) -/

/-- `re.sub(rf"(日|人|時間|回|回数|週)$", "", s)`: remove one quantity unit
anchored at the end (the leftmost match is the longest matching suffix). -/
def stripUnitSuffix (l : List Char) : List Char :=
  if endsWithL l ['時', '間'] then l.dropLast.dropLast
  else if endsWithL l ['回', '数'] then l.dropLast.dropLast
  else if endsWithL l ['日'] then l.dropLast
  else if endsWithL l ['人'] then l.dropLast
  else if endsWithL l ['回'] then l.dropLast
  else if endsWithL l ['週'] then l.dropLast
  else l

/-- `.replace(",", "").replace("−", "-").replace("△", "-").replace("▲", "-")`. -/
def cleanReplace (l : List Char) : List Char :=
  (l.filter (fun c => c != ',')).map
    (fun c => if c = '−' then '-' else if c = '△' then '-' else if c = '▲' then '-' else c)

/-- The cleaning pipeline of `_clean_amount` before the digit-count check:
translate, strip wrapping parentheses (recording negativity), strip a
trailing quantity unit, normalize separators and minus variants. -/
def cleanCore (s : String) : Bool × List Char :=
  let l := transList s.data
  let neg := l.head? == some '(' && l.getLast? == some ')'
  let l2 := if neg then (l.drop 1).dropLast else l
  (neg, cleanReplace (stripUnitSuffix l2))

/-- `_clean_amount`: resolve a numeric token to a signed integer, failing with
`overflow` when more than 9 digits remain, `invalid` when `int()` fails. -/
def cleanAmount (s : String) : Except AmtErr Int :=
  let p := cleanCore s
  if (p.2.filter Char.isDigit).length > 9 then .error .overflow
  else
    match pyIntList p.2 with
    | some a => .ok (if p.1 then -a else a)
    | none => .error .invalid

/-! ### Constant tables of the parser -/

def QUANTITY_UNITS : List String := ["日", "人", "時間", "回", "回数", "週"]

def GROSS_KEYS : List String := ["gross", "総支給", "支給総額", "支給合計", "総支給額"]

def NET_KEYS : List String := ["net", "手取り", "差引支給額"]

def DEDUCTION_KEYS : List String := ["deduction", "控除合計"]

/-- `name in TOTAL_KEYS` (`TOTAL_KEYS = set(GROSS_KEYS) | set(NET_KEYS) | set(DEDUCTION_KEYS)`). -/
def totalKeysMem (s : String) : Bool :=
  GROSS_KEYS.contains s || NET_KEYS.contains s || DEDUCTION_KEYS.contains s

/-- `SKIP_PAT = re.compile(r"(標準報酬|保険料改定|対象額|累計|非課税)")`, used with `.search`. -/
def SKIP_MARKS : List String := ["標準報酬", "保険料改定", "対象額", "累計", "非課税"]

/-- `_TOTAL_EXCLUDE = re.compile(r"(累計|対象額|非課税)")`, used with `.search`. -/
def TOTAL_EXCLUDE_MARKS : List String := ["累計", "対象額", "非課税"]

def CATEGORY_MAP : List (String × String) :=
  [("健康保険料", "deduction"), ("厚生年金保険", "deduction"), ("雇用保険料", "deduction"),
   ("所得税", "deduction"), ("本給", "payment"), ("支給額", "payment"),
   ("通勤費補助", "payment"), ("東友会費", "deduction"), ("共済会費", "deduction"),
   ("社員会費", "deduction"), ("控除合計", "deduction"), ("差引支給額", "net"),
   ("雇保対象額", "skip"), ("当月所得税累計", "skip"), ("口座振込額", "net")]

def KNOWN_SECTION_LABELS : List String :=
  ["支給項目", "控除項目", "就業項目", "当月欄", "年間累計欄",
   "基本情報", "社員情報", "勤怠情報", "勤務情報", "個人情報", "所属情報",
   "支給内訳", "控除内訳", "勤怠明細", "勤怠項目", "当月明細", "年間累計",
   "差引支給額欄", "賞与明細", "賞与欄", "手当項目", "保険料明細", "その他",
   "備考欄", "支給合計欄", "控除合計欄",
   "課税対象額", "社会保険対象額", "雇保対象額", "退職金対象額", "年末調整対象額",
   "ｼｷｭｳｺｳﾓｸ", "ｺｳｼﾞｮｳｺｳﾓｸ", "ｼｭｳｷﾞｮｳｺｳﾓｸ"]

def SECTION_MAP : List (String × String) :=
  [("支給項目", "payment"), ("控除項目", "deduction"), ("就業項目", "attendance"),
   ("勤怠項目", "attendance"), ("勤怠明細", "attendance"), ("勤怠情報", "attendance"),
   ("勤務情報", "attendance"), ("当月欄", "当月"), ("年間累計欄", "年間累計"),
   ("ｼｷｭｳｺｳﾓｸ", "payment"), ("ｺｳｼﾞｮｳｺｳﾓｸ", "deduction"), ("ｼｭｳｷﾞｮｳｺｳﾓｸ", "attendance")]

def KNOWN_METADATA_LABELS : List String :=
  ["社員番号", "氏名", "資格", "所属", "役職", "事業所名", "部門名", "部署",
   "支店名", "住所", "電話番号"]

/-- `_deduction_keywords`. -/
def deductionKeywords : List String := ["税", "保険", "控除", "料", "差引", "保険料改定", "精算"]

/-- `reset_sections` of `_parse_text`. -/
def resetSections : List String := ["支給合計", "控除合計", "差引支給額"]

/-- `ATTENDANCE_PATTERN.search(name)`: `re.compile(r"(日数|時間|回数?|人|週)$")`. -/
def attendanceSuffix (name : String) : Bool :=
  endsWithL name.data ['日', '数'] || endsWithL name.data ['時', '間'] ||
  endsWithL name.data ['回', '数'] || endsWithL name.data ['回'] ||
  endsWithL name.data ['人'] || endsWithL name.data ['週']

def lookupStr (m : List (String × String)) (k : String) : Option String :=
  (m.find? (fun p => p.1 == k)).map (fun p => p.2)

def hasDeductionKeyword (name : String) : Bool :=
  deductionKeywords.any (fun k => strContains name k)

/-! ### The concrete regular expressions of `_parse_text` -/

/-- Consume one optional character matching `p`. -/
def splitOpt (p : Char → Bool) (l : List Char) : List Char × List Char :=
  match l with
  | c :: cs => if p c then ([c], cs) else ([], l)
  | [] => ([], [])

/-- `amount_only = ^[\+\-−△▲]?\(?\d[\d,]*\)?$` (as a full-line test). -/
def matchAmountOnly (s : String) : Bool :=
  let l1 := (splitOpt isSignPm s.data).2
  let l2 := (splitOpt (fun c => c == '(') l1).2
  match l2 with
  | c :: cs =>
      c.isDigit &&
        (let rest := cs.dropWhile isDigitComma
         rest.isEmpty || rest == [')'])
  | [] => false

/-- `value_with_unit = ^(\d+)\s*(日|人|時間|回数?|週)$`, groups (digits, unit). -/
def matchValueWithUnit (s : String) : Option (String × String) :=
  match s.data with
  | c :: cs =>
      if c.isDigit then
        let digits := (c :: cs).takeWhile Char.isDigit
        let rest := ((c :: cs).dropWhile Char.isDigit).dropWhile isPyWs
        if QUANTITY_UNITS.contains ⟨rest⟩ then some (⟨digits⟩, ⟨rest⟩) else none
      else none
  | [] => none

/-- After the separator run of `item_attendance`: `(\d+)(日|人|時間|回数?|週)$`. -/
def attTail (r : List Char) : Option (String × String) :=
  match r with
  | c :: cs =>
      if isSepCh c then
        match cs.dropWhile isSepCh with
        | d :: ds =>
            if d.isDigit then
              let digits := (d :: ds).takeWhile Char.isDigit
              let rest := (d :: ds).dropWhile Char.isDigit
              if QUANTITY_UNITS.contains ⟨rest⟩ then some (⟨digits⟩, ⟨rest⟩) else none
            else none
        | [] => none
      else none
  | [] => none

/-- `item_attendance = ^([^\d]+?)[：:\s]+(\d+)(日|人|時間|回数?|週)$`; the lazy
name group takes the shortest viable non-digit run. -/
def itemAttendanceGo (name : List Char) : List Char → Option (String × String × String)
  | [] => none
  | c :: cs =>
      if c.isDigit then none
      else
        match attTail cs with
        | some (d, u) => some (⟨name ++ [c]⟩, d, u)
        | none => itemAttendanceGo (name ++ [c]) cs

def matchItemAttendance (s : String) : Option (String × String × String) :=
  itemAttendanceGo [] s.data

/-- `item_attendance_inline = ^([^\d]+?)(\d+)(日|人|時間|回数?|週)$`. -/
def matchItemAttendanceInline (s : String) : Option (String × String × String) :=
  let name := s.data.takeWhile (fun c => !c.isDigit)
  let rest := s.data.dropWhile (fun c => !c.isDigit)
  if name.isEmpty then none
  else
    match rest with
    | [] => none
    | _ :: _ =>
        let digits := rest.takeWhile Char.isDigit
        let rest2 := rest.dropWhile Char.isDigit
        if QUANTITY_UNITS.contains ⟨rest2⟩ then some (⟨name⟩, ⟨digits⟩, ⟨rest2⟩) else none

/-- `([^\s]+)$` value check of `item_amount`. -/
def valueCheckNoWs (r : List Char) : Option (List Char) :=
  match r with
  | [] => none
  | _ :: _ => if r.all (fun c => !isPyWs c) then some r else none

/-- Greedy-with-backtracking tail of `[：:\s]+([^\s]+)$` after one separator
character has been consumed. -/
def sepValueAux : List Char → Option (List Char)
  | [] => none
  | c :: cs =>
      if isSepCh c then
        match sepValueAux cs with
        | some v => some v
        | none => valueCheckNoWs (c :: cs)
      else valueCheckNoWs (c :: cs)

def sepThenValue : List Char → Option (List Char)
  | c :: cs => if isSepCh c then sepValueAux cs else none
  | [] => none

/-- `item_amount = ^([^\d]+?)[：:\s]+([^\s]+)$`, groups (name, value). -/
def itemAmountGo (name : List Char) : List Char → Option (String × String)
  | [] => none
  | c :: cs =>
      if c.isDigit then none
      else
        match sepThenValue cs with
        | some v => some (⟨name ++ [c]⟩, ⟨v⟩)
        | none => itemAmountGo (name ++ [c]) cs

def matchItemAmount (s : String) : Option (String × String) := itemAmountGo [] s.data

/-- `re.fullmatch(r"\d+", s)`. -/
def fullmatchDigits (s : String) : Bool := !s.data.isEmpty && s.data.all Char.isDigit

/-- `re.fullmatch(r"[\-−△▲]?\d[\d,]*", s)`. -/
def fullmatchNegNum (s : String) : Bool :=
  let l := (splitOpt isSignNeg s.data).2
  match l with
  | d :: ds => d.isDigit && ds.all isDigitComma
  | [] => false

/-- `^([^\d]+?)([\-−△▲]?\d[\d,]*)$` (`m_comb` / `m_name_amount`),
groups (name, value); the lazy name takes the shortest viable run. -/
def nameAmountGo (name : List Char) : List Char → Option (String × String)
  | [] => none
  | c :: cs =>
      if c.isDigit then none
      else if fullmatchNegNum ⟨cs⟩ then some (⟨name ++ [c]⟩, ⟨cs⟩)
      else nameAmountGo (name ++ [c]) cs

def matchNameAmount (s : String) : Option (String × String) := nameAmountGo [] s.data

/-- `re.match(r"^[^\d]+$", line)`. -/
def allNonDigit (s : String) : Bool :=
  !s.data.isEmpty && s.data.all (fun c => !c.isDigit)

/-- The leading amount group of `amount_first_pattern`:
`(?:\([\+\-−△▲]?\d[\d,]*\))|[\+\-−△▲]?\d[\d,]*`; returns (group, rest). -/
def amountFirstNum (l : List Char) : Option (List Char × List Char) :=
  match l with
  | '(' :: cs =>
      let p := splitOpt isSignPm cs
      match p.2 with
      | d :: ds =>
          if d.isDigit then
            match ds.dropWhile isDigitComma with
            | ')' :: rest => some ('(' :: p.1 ++ d :: ds.takeWhile isDigitComma ++ [')'], rest)
            | _ => none
          else none
      | [] => none
  | _ =>
      let p := splitOpt isSignPm l
      match p.2 with
      | d :: ds =>
          if d.isDigit then some (p.1 ++ d :: ds.takeWhile isDigitComma, ds.dropWhile isDigitComma)
          else none
      | [] => none

/-- `amount_first_pattern = ^[¥￥]?(...)\s+(.+)$`, groups (amount, trailing). -/
def matchAmountFirst (s : String) : Option (String × String) :=
  let l1 := (splitOpt (fun c => c == '¥' || c == '￥') s.data).2
  match amountFirstNum l1 with
  | some (g1, rest) =>
      let w := rest.takeWhile isPyWs
      let r := rest.dropWhile isPyWs
      if w.isEmpty then none
      else if !r.isEmpty then some (⟨g1⟩, ⟨r⟩)
      else if w.length ≥ 2 then some (⟨g1⟩, ⟨[w.getLastD ' ']⟩)
      else none
  | none => none

/-! ### Data model and parser state -/

/-- `PayslipItem` of `schemas.py` (`id` omitted: it is `None` throughout the
parser). -/
structure PayslipItem where
  name : String
  amount : Int
  category : Option String
  «section» : Option String
deriving DecidableEq, Repr

/-- The mutable locals of `_parse_text` (`ParserState` + accumulating result). -/
structure PState where
  gross : Option Int
  net : Option Int
  deduction : Option Int
  items : List PayslipItem
  attendance : List (String × Int)
  currentSection : Option String
  untilMarker : Option String
  pendingSection : Option String
  pendingNames : List String
deriving DecidableEq, Repr

def initState : PState := ⟨none, none, none, [], [], none, none, none, []⟩

/-- Python `dict` assignment `d[k] = v`: update in place, else append. -/
def dictSet : List (String × Int) → String → Int → List (String × Int)
  | [], k, v => [(k, v)]
  | p :: rest, k, v => if p.1 == k then (p.1, v) :: rest else p :: dictSet rest k v

/-- Python `a or b` on optional strings (`""` and `None` are falsy). -/
def pyOrOpt (a b : Option String) : Option String :=
  match a with
  | some s => if s == "" then b else some s
  | none => b

/-- `int(s)` on an all-digit string. -/
def intOfDigits (s : String) : Int := (digitsToNat s.data : Int)

/-- `if pending_section: current_section = pending_section; pending_section = None`. -/
def flushPending (st : PState) : PState :=
  match st.pendingSection with
  | some s => { st with currentSection := some s, pendingSection := none }
  | none => st

/-- The unconditional `TOTAL_KEYS` assignment block
(`if name in GROSS_KEYS: gross = amount`, …). -/
def assignTotalKeys (name : String) (amt : Int) (st : PState) : PState :=
  let st1 := if GROSS_KEYS.contains name then { st with gross := some amt } else st
  let st2 := if NET_KEYS.contains name then { st1 with net := some amt } else st1
  if DEDUCTION_KEYS.contains name then { st2 with deduction := some amt } else st2

/-- `_handle_total_line(label, amt)`: strict total labels, each total assigned
only while still unset; returns whether the label was consumed. -/
def handleTotalLine (label : String) (amt : Int) (st : PState) : PState × Bool :=
  if containsAnyOf label TOTAL_EXCLUDE_MARKS then (st, true)
  else if strContains label "支給合計" || strContains label "総支給" then
    (if st.gross = none then { st with gross := some amt } else st, true)
  else if strContains label "控除合計" && !strContains label "差引" then
    (if st.deduction = none then { st with deduction := some amt } else st, true)
  else if strContains label "差引支給額" || strContains label "手取り" then
    (if st.net = none then { st with net := some amt } else st, true)
  else if label == "口座振込額" || label == "口座振込額:" || label == "口座振込額：" then
    (if st.net = none then { st with net := some amt } else st, true)
  else (st, false)

/-- Section-based default category (`"payment" if section == "payment" else
"deduction" if section == "deduction" else None`). -/
def sectionCategory (sec : Option String) : Option String :=
  if sec == some "payment" then some "payment"
  else if sec == some "deduction" then some "deduction"
  else none

/-- The guarded item emission: small non-attendance amounts (|amount| < 10)
are skipped as suspicious, otherwise the item is appended. -/
def emitItemGuarded (st : PState) (name : String) (amount : Int)
    (category : Option String) (sec : Option String) : PState :=
  if sec != some "attendance" && amount.natAbs < 10 then st
  else { st with items := st.items ++ [⟨name, amount, category, sec⟩] }

/-- `section == "attendance" or ATTENDANCE_PATTERN.search(name) or name in
QUANTITY_UNITS`. -/
def isAttendanceRoute (sec : Option String) (name : String) : Bool :=
  sec == some "attendance" || attendanceSuffix name || QUANTITY_UNITS.contains name

/-- The shared routing of a resolved (name, amount): attendance mapping,
unconditional `TOTAL_KEYS` assignment, `_handle_total_line`, or guarded item
emission.  The boolean reports that the attendance branch was taken. -/
def routeAmount (st : PState) (name : String) (amount : Int) : PState × Bool :=
  let sec := st.currentSection
  if isAttendanceRoute sec name then
    ({ st with attendance := dictSet st.attendance name amount }, true)
  else if totalKeysMem name then (assignTotalKeys name amount st, false)
  else
    match handleTotalLine name amount st with
    | (st2, true) => (st2, false)
    | (st2, false) =>
        (emitItemGuarded st2 name amount (sectionCategory sec) sec, false)

/-! ### `parse_token_pairs` -/

/-- `parse_token_pairs(tokens)`: walk simple name/amount token pairs.
Returns the new state and the `handled` flag. -/
def ptpGo : PState → Bool → List String → PState × Bool
  | st, handled, [] => (st, handled)
  | st, handled, [_] => (st, handled)
  | st0, handled, t0 :: t1 :: rest =>
      let st := flushPending st0
      let name := rstripColons t0
      match lookupStr SECTION_MAP name with
      | some sec => ptpGo { st with pendingSection := some sec } handled (t1 :: rest)
      | none =>
          if QUANTITY_UNITS.contains name && !rest.isEmpty && fullmatchDigits t1 then
            -- unit before number pattern: "日 21 所定労働日数"
            match rest with
            | t2 :: rest2 =>
                ptpGo { st with attendance := dictSet st.attendance t2 (intOfDigits t1) }
                  true rest2
            | [] => (st, handled)
          else if !rest.isEmpty && fullmatchDigits t1 &&
              QUANTITY_UNITS.contains (rest.headD "") then
            -- quantity with explicit unit separated by space
            match rest with
            | _ :: rest2 =>
                ptpGo { st with attendance := dictSet st.attendance name (intOfDigits t1) }
                  true rest2
            | [] => (st, handled)
          else if fullmatchNegNum t1 then
            match cleanAmount t1 with
            | .error _ => ptpGo st handled rest
            | .ok amount =>
                let st := flushPending st
                if totalKeysMem name then
                  ptpGo (assignTotalKeys name amount st) true rest
                else
                  let cleanName := dropTrailingDigits name
                  let category :=
                    pyOrOpt (lookupStr CATEGORY_MAP cleanName) (sectionCategory st.currentSection)
                  ptpGo (emitItemGuarded st cleanName amount category st.currentSection) true rest
          else
            match matchNameAmount name with
            | some (nm, val) =>
                if strContains val "," || (val.data.filter Char.isDigit).length ≥ 2 then
                  match cleanAmount val with
                  | .error _ => ptpGo st handled (t1 :: rest)
                  | .ok amount =>
                      let st := flushPending st
                      let category :=
                        pyOrOpt (lookupStr CATEGORY_MAP nm) (sectionCategory st.currentSection)
                      ptpGo { st with items :=
                          st.items ++ [⟨nm, amount, category, st.currentSection⟩] }
                        true (t1 :: rest)
                else
                  let cleaned := dropTrailingDigits nm
                  if cleaned != "" && !KNOWN_METADATA_LABELS.contains cleaned &&
                      !KNOWN_SECTION_LABELS.contains cleaned then
                    ptpGo { st with pendingNames := st.pendingNames ++ [cleaned] }
                      true (t1 :: rest)
                  else ptpGo st handled (t1 :: rest)
            | none => ptpGo st handled (t1 :: rest)

/-! ### Per-line processing of `_parse_text` -/

/-- `re.sub(rf"^{re.escape(hdr)}[：:]*\s*", "", line)`. -/
def dropLabelColonsWs (hdr line : String) : String :=
  if strStarts line hdr then
    ⟨((line.data.drop hdr.data.length).dropWhile (fun c => c == '：' || c == ':')).dropWhile
      isPyWs⟩
  else line

/-- One step of the `SECTION_MAP` loop:
`re.match(rf"^{re.escape(sec_label)}(?:[：:]\s*|\s+)?(.*)$", line)`. -/
def sectionMapRemainder (label line : String) : Option String :=
  if strStarts line label then
    let rest := line.data.drop label.data.length
    match rest with
    | c :: cs =>
        if c == '：' || c == ':' then some ⟨cs.dropWhile isPyWs⟩
        else if isPyWs c then some ⟨rest.dropWhile isPyWs⟩
        else some ⟨rest⟩
    | [] => some ""
  else none

/-- The `SECTION_MAP` scan with its guard
`m and (not m.group(1) or m.group(1) != line)`. -/
def findSectionMapGo (line : String) : List (String × String) → Option (String × String)
  | [] => none
  | (lbl, sec) :: rest =>
      match sectionMapRemainder lbl line with
      | some r =>
          if r == "" || r != line then some (sec, r) else findSectionMapGo line rest
      | none => findSectionMapGo line rest

/-- `any(re.fullmatch(rf"{re.escape(lbl)}[：:]*\d*", line) for lbl in
KNOWN_SECTION_LABELS)`. -/
def sectionLabelNum (line : String) : Bool :=
  KNOWN_SECTION_LABELS.any (fun lbl =>
    strStarts line lbl &&
      ((line.data.drop lbl.data.length).dropWhile
        (fun c => c == '：' || c == ':')).all Char.isDigit)

/-- The fallback token loop of `_parse_text` (the `while i < len(tokens)` loop
after `parse_token_pairs` declined the line); carries the local `name_queue`
and the `handled` flag, and can propagate the unguarded `_clean_amount` call
on a quantity token. -/
def fbGo : PState → List String → Bool → List String → Except AmtErr (PState × List String × Bool)
  | st0, queue, handled, [] => .ok (st0, queue, handled)
  | st0, queue, handled, tok :: rest =>
      let st := flushPending st0
      match matchValueWithUnit tok with
      | some (v, _u) =>
          (match queue with
           | n :: _ =>
               let st := flushPending st
               fbGo { st with attendance := dictSet st.attendance n (intOfDigits v),
                              pendingNames := [] } [] true rest
           | [] => fbGo st queue handled rest)
      | none =>
          if matchAmountOnly tok && !rest.isEmpty &&
              QUANTITY_UNITS.contains (rest.headD "") && !queue.isEmpty then
            match queue, rest with
            | n :: _, _ :: rest2 =>
                let st := flushPending st
                (match cleanAmount tok with
                 | .error e => .error e
                 | .ok amt =>
                     fbGo { st with attendance := dictSet st.attendance n amt,
                                    pendingNames := [] } [] true rest2)
            | _, _ => .ok (st, queue, handled)
          else if matchAmountOnly tok then
            match queue with
            | n :: qrest =>
                let st := flushPending st
                (match cleanAmount tok with
                 | .error _ => fbGo st qrest handled rest
                 | .ok amount =>
                     let p := routeAmount st n amount
                     fbGo p.1 qrest true rest)
            | [] =>
                (match cleanAmount tok with
                 | .error _ => fbGo st queue handled rest
                 | .ok _ => fbGo st queue handled rest)
          else
            match matchNameAmount tok with
            | some (nm, val) =>
                if (strContains val "," || (val.data.filter Char.isDigit).length ≥ 2) &&
                    nm != "" && !KNOWN_METADATA_LABELS.contains nm &&
                    !KNOWN_SECTION_LABELS.contains nm then
                  let st := flushPending st
                  (match cleanAmount val with
                   | .error _ => fbGo st queue handled rest
                   | .ok amount =>
                       fbGo { st with items := st.items ++
                           [⟨nm, amount, sectionCategory st.currentSection,
                             st.currentSection⟩] } queue true rest)
                else
                  let cleaned := dropTrailingDigits tok
                  if cleaned != "" && !KNOWN_METADATA_LABELS.contains cleaned &&
                      !KNOWN_SECTION_LABELS.contains cleaned then
                    fbGo st (queue ++ [cleaned]) true rest
                  else fbGo st queue handled rest
            | none =>
                let cleaned := dropTrailingDigits tok
                if cleaned != "" && !KNOWN_METADATA_LABELS.contains cleaned &&
                    !KNOWN_SECTION_LABELS.contains cleaned then
                  fbGo st (queue ++ [cleaned]) true rest
                else fbGo st queue handled rest

/-- Lines 746–904: token-based fallback with name/amount pair queuing. -/
def lineFallback (st : PState) (line : String) : Except AmtErr PState :=
  let tokens := pySplitWs line
  if tokens.isEmpty then .ok { st with pendingNames := [] }
  else
    match ptpGo st false tokens with
    | (st2, true) => .ok { st2 with pendingNames := [] }
    | (st2, false) =>
        let nameQueue := st2.pendingNames
        let st3 := { st2 with pendingNames := [] }
        match fbGo st3 nameQueue false tokens with
        | .error e => .error e
        | .ok (st4, queue, handled) =>
            let st5 := { st4 with pendingNames := st4.pendingNames ++ queue }
            if handled then .ok st5 else .ok { st5 with pendingNames := [] }

/-- Lines 736–744: all-non-digit lines enqueue a pending name. -/
def lineNonDigit (st : PState) (line : String) : Except AmtErr PState :=
  if allNonDigit line then
    let cleaned := dropTrailingDigits (pyStrip line)
    if cleaned != "" && !KNOWN_METADATA_LABELS.contains cleaned &&
        !KNOWN_SECTION_LABELS.contains cleaned then
      .ok { st with pendingNames := st.pendingNames ++ [cleaned] }
    else .ok st
  else lineFallback st line

/-- Lines 644–734: `amount_first_pattern` (amount before name). -/
def lineAmountFirst (st0 : PState) (line : String) : Except AmtErr PState :=
  match matchAmountFirst line with
  | some (g1, g2) =>
      let st := flushPending st0
      (match cleanAmount g1 with
       | .error _ => .ok { st with pendingNames := [] }
       | .ok amount =>
           let name := dropTrailingDigits (pyStrip g2)
           match st.pendingNames with
           | prev :: restNames =>
               let st := { st with pendingNames := restNames }
               let p := routeAmount st prev amount
               let st3 := if p.2 then { p.1 with pendingNames := [] } else p.1
               if name != "" && !KNOWN_METADATA_LABELS.contains name then
                 .ok { st3 with pendingNames := st3.pendingNames ++ [name] }
               else .ok st3
           | [] =>
               if name == "" || KNOWN_METADATA_LABELS.contains name then
                 .ok { st with pendingNames := [] }
               else .ok (routeAmount st name amount).1)
  | none => lineNonDigit st0 line

/-- Lines 580–642: `amount_only` lines; the `支給合計`/`控除合計` pending cases
call `_clean_amount` without a `try` and can propagate its failure. -/
def lineAmountOnly (st : PState) (line : String) : Except AmtErr PState :=
  if matchAmountOnly line then
    if st.pendingNames == ["支給合計"] then
      match cleanAmount line with
      | .error e => .error e
      | .ok amt => .ok { st with gross := some amt, pendingNames := [] }
    else if st.pendingNames == ["控除合計"] then
      match cleanAmount line with
      | .error e => .error e
      | .ok amt => .ok { st with deduction := some amt, pendingNames := [] }
    else
      match st.pendingNames with
      | n :: restNames =>
          let st := flushPending { st with pendingNames := restNames }
          (match cleanAmount line with
           | .error _ => .ok st
           | .ok amount =>
               let p := routeAmount st n amount
               if p.2 then .ok { p.1 with pendingNames := [] } else .ok p.1)
      | [] =>
          (match cleanAmount line with
           | .error _ => .ok st
           | .ok _ => .ok st)
  else lineAmountFirst st line

/-- Lines 570–578: `value_with_unit` line paired with the oldest pending name. -/
def lineValueUnit (st : PState) (line : String) : Except AmtErr PState :=
  match matchValueWithUnit line, st.pendingNames with
  | some (v, _u), n :: _ =>
      let st := flushPending st
      .ok { st with attendance := dictSet st.attendance n (intOfDigits v),
                    pendingNames := [] }
  | _, _ => lineAmountOnly st line

/-- Lines 515–568: `item_amount` (name, separator, amount to end of line). -/
def lineItemAmount (st : PState) (line : String) : Except AmtErr PState :=
  match matchItemAmount line with
  | some (nm0, value) =>
      let st := flushPending st
      let name := dropTrailingDigits (pyStrip nm0)
      if name == "" || KNOWN_METADATA_LABELS.contains name then
        .ok { st with pendingNames := [] }
      else
        (match cleanAmount value with
         | .error _ =>
             let p := ptpGo st false (pySplitWs line)
             .ok { p.1 with pendingNames := [] }
         | .ok amount =>
             let p := routeAmount st name amount
             .ok { p.1 with pendingNames := [] })
  | none => lineValueUnit st line

/-- Lines 489–513: the attendance patterns and the multi-pair branch. -/
def lineBody2 (st : PState) (line : String) : Except AmtErr PState :=
  if sectionLabelNum line then
    let cleaned := dropTrailingDigitColons (pyStrip line)
    if cleaned != "" then .ok { st with pendingNames := st.pendingNames ++ [cleaned] }
    else .ok { st with pendingNames := [] }
  else if KNOWN_METADATA_LABELS.any (fun lbl => strStarts line lbl) then
    .ok { st with pendingNames := [] }
  else
    match matchItemAttendance line with
    | some (nm, v, _u) =>
        let st := flushPending st
        .ok { st with attendance := dictSet st.attendance (pyStrip nm) (intOfDigits v),
                      pendingNames := [] }
    | none =>
        match matchItemAttendanceInline line with
        | some (nm, v, _u) =>
            let st := flushPending st
            .ok { st with attendance := dictSet st.attendance (pyStrip nm) (intOfDigits v),
                          pendingNames := [] }
        | none =>
            if line.data.countP (fun c => c == ' ') ≥ 3 &&
                line.data.countP Char.isDigit ≥ 2 then
              match ptpGo st false (pySplitWs line) with
              | (st2, true) => .ok { st2 with pendingNames := [] }
              | (st2, false) => lineItemAmount st2 line
            else lineItemAmount st line

/-- Lines 449–487: noise skip, section reset, `SECTION_MAP` hints and known
section labels. -/
def lineBody (st : PState) (line : String) : Except AmtErr PState :=
  if containsAnyOf line SKIP_MARKS then .ok st
  else if resetSections.contains line then
    .ok { st with currentSection := none, pendingSection := none, pendingNames := [] }
  else
    match findSectionMapGo line SECTION_MAP with
    | some (sec, r) =>
        let st := if st.pendingSection == none then { st with pendingSection := some sec }
                  else st
        let st := { st with pendingNames := [] }
        let r2 := pyStrip r
        if r2 == "" then .ok st else lineBody2 st r2
    | none => lineBody2 st line

/-- Lines 423–447: strip/normalize the raw line, then the `SECTION_BEGIN`
headers and the active closing marker. -/
def lineStep (st0 : PState) (rawLine : String) : Except AmtErr PState :=
  let line0 := normalizeText (pyStrip rawLine)
  if line0 == "" then .ok st0
  else
    let p1 :=
      if strStarts line0 "支給項目" then
        ({ st0 with currentSection := some "payment", untilMarker := some "支給合計" },
         dropLabelColonsWs "支給項目" line0, true)
      else if strStarts line0 "控除項目" then
        ({ st0 with currentSection := some "deduction", untilMarker := some "控除合計" },
         dropLabelColonsWs "控除項目" line0, true)
      else (st0, line0, false)
    match p1 with
    | (st1, line1, matchedStart) =>
        if matchedStart && line1 == "" then .ok st1
        else
          let p2 :=
            match st1.untilMarker with
            | some mk =>
                if strStarts line1 mk then
                  ({ st1 with currentSection := none, untilMarker := none },
                   dropLabelColonsWs mk line1, true)
                else (st1, line1, false)
            | none => (st1, line1, false)
          match p2 with
          | (st2, line2, ended) =>
              if ended && line2 == "" then .ok st2
              else lineBody st2 line2

/-- The line loop of `_parse_text`. -/
def parseLines : PState → List String → Except AmtErr PState
  | st, [] => .ok st
  | st, l :: ls =>
      match lineStep st l with
      | .error e => .error e
      | .ok st2 => parseLines st2 ls

/-- The dictionary returned by `_parse_text`. -/
structure ParseOut where
  items : List PayslipItem
  gross : Option Int
  net : Option Int
  deduction : Option Int
  attendance : List (String × Int)
deriving DecidableEq, Repr

/-- `_parse_text(text)`; a `ValueError` escaping the parse is `.error`. -/
def parseText (text : String) : Except AmtErr ParseOut :=
  match parseLines initState (splitLines text) with
  | .error e => .error e
  | .ok st => .ok ⟨st.items, st.gross, st.net, st.deduction, st.attendance⟩

/-! ### `_categorize_items` (§4.6) -/

/-- The body of the `_categorize_items` loop for one item: `none` when the
item is dropped (`skip`/`attendance`), otherwise the re-categorized copy. -/
def categorizeOne (it : PayslipItem) : Option PayslipItem :=
  let cat0 := pyOrOpt it.category (lookupStr CATEGORY_MAP it.name)
  let cat1 :=
    match cat0 with
    | some c =>
        if c == "" then
          if it.amount < 0 then "deduction"
          else if it.«section» == some "attendance" || attendanceSuffix it.name then "attendance"
          else if hasDeductionKeyword it.name then "deduction"
          else "payment"
        else c
    | none =>
        if it.amount < 0 then "deduction"
        else if it.«section» == some "attendance" || attendanceSuffix it.name then "attendance"
        else if hasDeductionKeyword it.name then "deduction"
        else "payment"
  if cat1 == "skip" || cat1 == "attendance" then none
  else
    let cat2 := if cat1 == "payment" && hasDeductionKeyword it.name then "deduction" else cat1
    let cat3 :=
      if cat2 != "attendance" &&
          (it.«section» == some "attendance" || attendanceSuffix it.name) then "attendance"
      else cat2
    let sec :=
      pyOrOpt it.«section»
        (if cat3 == "attendance" then some "attendance"
         else if cat3 == "payment" then some "payment"
         else if cat3 == "deduction" then some "deduction"
         else none)
    some ⟨it.name, it.amount, some cat3, sec⟩

/-- `_categorize_items(items)`. -/
def categorizeItems (items : List PayslipItem) : List PayslipItem :=
  items.filterMap categorizeOne

/-! ### `_normalize_items`, total derivation (`_parse_file`), `_warn_inconsistent` -/

/-- `_normalize_items(items)`: split into payments and deductions, negative
amounts (or category `deduction`) going to deductions. -/
def normalizeItems : List PayslipItem → List PayslipItem × List PayslipItem
  | [] => ([], [])
  | it :: rest =>
      let p := normalizeItems rest
      if it.amount < 0 || it.category == some "deduction" then (p.1, it :: p.2)
      else (it :: p.1, p.2)

def sumAmounts (items : List PayslipItem) : Int :=
  items.foldl (fun a it => a + it.amount) 0

/-- The total-derivation step of `_parse_file` (lines 1052–1064): each of
gross, deduction, net is filled from the items only when still unset. -/
def deriveTotals (gross deduction net : Option Int) (items : List PayslipItem) :
    Int × Int × Int :=
  let p := normalizeItems items
  let g := match gross with | some g0 => g0 | none => sumAmounts p.1
  let d := match deduction with | some d0 => d0 | none => sumAmounts p.2
  let n := match net with | some n0 => n0 | none => g - d
  (g, d, n)

/-- `_warn_inconsistent(gross, deduction, net)`. -/
def warnInconsistent (gross deduction net : Option Int) : List String :=
  match gross, deduction, net with
  | some g, some d, some n =>
      if g - d ≠ n then ["支給合計 - 控除合計 と 差引支給額 が一致しません"] else []
  | _, _, _ => []

/-! ### Claim theorems -/

/-- C1: the parse does not return normally on every input.  The claim says an
amount-resolution failure only skips the offending token; but on the input
"支給合計1\n1234567890" the amount-only line reaches the unguarded
`gross = _clean_amount(line)` call (pending name 支給合計), whose overflow
`ValueError` propagates out of the whole parse. -/
theorem c1_overflow_escapes_parse :
    parseText "支給合計1\n1234567890" = .error .overflow := rfl

/-- C4 counterexample: with gross 10, deduction 0, net 9 the difference is
exactly 1, yet the consistency checker does append a warning — refuting the
claimed |difference| > 1 threshold. -/
theorem c4_counterexample :
    warnInconsistent (some 10) (some 0) (some 9) =
      ["支給合計 - 控除合計 と 差引支給額 が一致しません"] ∧ (10 : Int) - 0 - 9 = 1 :=
  ⟨rfl, by decide⟩

/-- C4 (amended): when all three totals are present, the warning is appended
exactly when gross − deduction ≠ net (no ±1 tolerance); in particular the
warnings list is empty iff gross − deduction = net, and the checker is a
total function (never raises). -/
theorem c4_warn_iff_mismatch (g d n : Int) :
    warnInconsistent (some g) (some d) (some n) = [] ↔ g - d = n := by
  unfold warnInconsistent
  by_cases h : g - d = n
  · simp [h]
  · simp [h]

/-- C6: the total-derivation step of the parse only fills unset fields: a
total already set (from an explicit total line) is returned unchanged, and a
missing gross/deduction is the sum of the payment/deduction items of
normalize-items, a missing net is derived gross minus derived deduction. -/
theorem c6_derivation_only_fills_unset (gross deduction net : Option Int)
    (items : List PayslipItem) :
    (∀ g0, gross = some g0 → (deriveTotals gross deduction net items).1 = g0) ∧
    (∀ d0, deduction = some d0 → (deriveTotals gross deduction net items).2.1 = d0) ∧
    (∀ n0, net = some n0 → (deriveTotals gross deduction net items).2.2 = n0) ∧
    (gross = none →
      (deriveTotals gross deduction net items).1 = sumAmounts (normalizeItems items).1) ∧
    (deduction = none →
      (deriveTotals gross deduction net items).2.1 = sumAmounts (normalizeItems items).2) ∧
    (net = none →
      (deriveTotals gross deduction net items).2.2 =
        (deriveTotals gross deduction net items).1 -
          (deriveTotals gross deduction net items).2.1) := by
  cases gross <;> cases deduction <;> cases net <;> simp [deriveTotals]

/-- C6 witness: a parse with an explicit gross 500 and a payment item of 100
keeps gross = 500 through derivation. -/
theorem c6_derivation_witness :
    (deriveTotals (some 500) none none [⟨"a", 100, some "payment", none⟩]).1 = 500 :=
  (c6_derivation_only_fills_unset (some 500) none none
    [⟨"a", 100, some "payment", none⟩]).1 500 rfl

/-- C8: the Amount Resolver returns −2460 for "(2,460)", 12860 for "+12,860"
and −500 for "－500"; any token whose cleaned digit string exceeds 9 digits
fails with overflow, and "日" (no digits left) fails as invalid. -/
theorem c8_amount_resolver :
    cleanAmount "(2,460)" = .ok (-2460) ∧
    cleanAmount "+12,860" = .ok 12860 ∧
    cleanAmount "－500" = .ok (-500) ∧
    (∀ s : String, 9 < ((cleanCore s).2.filter Char.isDigit).length →
      cleanAmount s = .error .overflow) ∧
    cleanAmount "日" = .error .invalid := by
  refine ⟨rfl, rfl, rfl, fun s h => ?_, rfl⟩
  simp only [cleanAmount]
  rw [if_pos h]

/-- C8 witness: the 11-digit run overflows through the general overflow
clause. -/
theorem c8_amount_resolver_witness :
    cleanAmount "12345678901" = .error .overflow :=
  c8_amount_resolver.2.2.2.1 "12345678901" (by decide)

/-- C9: text normalization (the _TRANS_TABLE translation) is idempotent. -/
theorem c9_normalize_idempotent (s : String) :
    normalizeText (normalizeText s) = normalizeText s :=
  congrArg String.mk (transList_idem s.data)

/-- C10: an 11-digit attendance quantity is exempt from the 9-digit overflow
cap: the line "欠勤日数 12345678901日" stores 12345678901 unchanged in the
attendance mapping (raw integer conversion), while the Amount Resolver fails
with overflow on that very token. -/
theorem c10_attendance_overflow_exempt :
    parseText "欠勤日数 12345678901日" =
      .ok ⟨[], none, none, none, [("欠勤日数", 12345678901)]⟩ ∧
    cleanAmount "12345678901日" = .error .overflow :=
  ⟨rfl, rfl⟩

/-- C2 counterexample: two explicit total lines under the same recognized
label 支給合計 (an exact TOTAL_KEYS name): the recorded gross is the amount of
the second line, not the first — the TOTAL_KEYS assignment overwrites. -/
theorem c2_counterexample :
    (parseText "支給合計 100\n支給合計 200").toOption.map ParseOut.gross =
      some (some 200) ∧ (some 200 : Option Int) ≠ some 100 :=
  ⟨rfl, by decide⟩

/-- C2 (amended): first-match-wins holds only for the strict total-line
handler _handle_total_line (labels merely containing the total keywords):
whatever label and amount it processes, totals that are already set are never
overwritten. -/
theorem c2_handle_total_preserves (label : String) (amt : Int) (st : PState) (g : Int) :
    (st.gross = some g → ((handleTotalLine label amt st).1).gross = some g) ∧
    (st.net = some g → ((handleTotalLine label amt st).1).net = some g) ∧
    (st.deduction = some g → ((handleTotalLine label amt st).1).deduction = some g) := by
  unfold handleTotalLine
  split_ifs with h1 h2 h3 h4 h5 <;>
    refine ⟨fun hg => ?_, fun hn => ?_, fun hd => ?_⟩ <;> simp_all

/-- C2 witness: a second strict total line (当月支給合計 contains 支給合計)
does not overwrite a gross already set to 1. -/
theorem c2_handle_total_witness :
    ((handleTotalLine "当月支給合計" 5 { initState with gross := some 1 }).1).gross =
      some 1 :=
  (c2_handle_total_preserves "当月支給合計" 5 { initState with gross := some 1 } 1).1 rfl

/-- C3 counterexample: an item arriving with category payment (e.g. from its
section hint) whose name contains the deduction keyword 料 is re-categorized
to deduction — the existing category is not kept. -/
theorem c3_counterexample :
    categorizeItems [⟨"通勤料", 100, some "payment", some "payment"⟩] =
      [⟨"通勤料", 100, some "deduction", some "payment"⟩] ∧
    (some "deduction" : Option String) ≠ some "payment" :=
  ⟨rfl, by decide⟩

/-- C3 (amended): an existing category is kept unless a post-override fires:
it must not be skip or attendance (those items are dropped), a payment item
must not carry a deduction keyword in its name, and the item must not look
like attendance (section attendance or attendance-suffix name). -/
theorem c3_existing_category_kept (it : PayslipItem) (c : String)
    (hc : it.category = some c) (hne : c ≠ "") (hskip : c ≠ "skip")
    (hatt : c ≠ "attendance")
    (hpay : c = "payment" → hasDeductionKeyword it.name = false)
    (hsec : it.«section» ≠ some "attendance")
    (hsuf : attendanceSuffix it.name = false) :
    (categorizeOne it).map PayslipItem.category = some (some c) := by
  have hpb : (c == "payment" && hasDeductionKeyword it.name) = false := by
    by_cases hcp : c = "payment"
    · simp [hcp, hpay hcp]
    · simp [hcp]
  have hsb : (it.«section» == some "attendance" || attendanceSuffix it.name) = false := by
    simp [hsec, hsuf]
  simp [categorizeOne, pyOrOpt, hc, hne, hskip, hatt, hpb, hsb]

/-- C3 witness: an item already categorized payment with a neutral name keeps
its category. -/
theorem c3_existing_category_witness :
    (categorizeOne ⟨"基本給", 100, some "payment", some "payment"⟩).map
      PayslipItem.category = some (some "payment") :=
  c3_existing_category_kept ⟨"基本給", 100, some "payment", some "payment"⟩ "payment"
    rfl (by decide) (by decide) (by decide) (fun _ => by decide) (by decide) (by decide)

/-- C5 counterexample: in a multi-pair token line, the combined token
社員番号00 is split by the name+digits branch, which emits an item named by
the metadata label 社員番号 with amount 0 (|0| < 10) and a non-attendance
section — violating both halves of the claimed LineItem invariant. -/
theorem c5_counterexample :
    (parseText "本給 100 社員番号00 x").toOption.map ParseOut.items =
      some [⟨"本給", 100, some "payment", none⟩, ⟨"社員番号", 0, none, none⟩] ∧
    "社員番号" ∈ KNOWN_METADATA_LABELS ∧ (0 : Int).natAbs < 10 ∧
    (none : Option String) ≠ some "attendance" :=
  ⟨rfl, by decide, by decide, by decide⟩

/-- C5 (amended): the magnitude half of the invariant holds exactly on the
guarded emission path (a name paired with a standalone amount): every item it
appends has |amount| ≥ 10 unless its section is attendance; items produced by
the unguarded combined name+digits branches, and names equal to metadata or
total labels, are not covered. -/
theorem c5_guarded_emission (st : PState) (name : String) (amount : Int)
    (category sec : Option String) (it : PayslipItem)
    (hmem : it ∈ (emitItemGuarded st name amount category sec).items) :
    it ∈ st.items ∨ it.«section» = some "attendance" ∨ 10 ≤ it.amount.natAbs := by
  unfold emitItemGuarded at hmem
  by_cases h : (sec != some "attendance" && decide (amount.natAbs < 10)) = true
  · rw [if_pos h] at hmem
    exact Or.inl hmem
  · rw [if_neg h] at hmem
    simp only [List.mem_append, List.mem_singleton] at hmem
    rcases hmem with hin | heq
    · exact Or.inl hin
    · subst heq
      simp only [Bool.and_eq_true, bne_iff_ne, ne_eq, decide_eq_true_eq, not_and,
        not_lt] at h
      by_cases hs : sec = some "attendance"
      · exact Or.inr (Or.inl hs)
      · exact Or.inr (Or.inr (h hs))

/-- C5 witness: an item emitted through the guard with amount 50 satisfies
the disjunction. -/
theorem c5_guarded_emission_witness :
    (⟨"x", 50, none, none⟩ : PayslipItem) ∈ initState.items ∨
    (⟨"x", 50, none, none⟩ : PayslipItem).«section» = some "attendance" ∨
    10 ≤ ((⟨"x", 50, none, none⟩ : PayslipItem).amount).natAbs :=
  c5_guarded_emission initState "x" 50 none none ⟨"x", 50, none, none⟩ (by decide)

/-- C7: the documented two-section multi-pair input parses and categorizes to
exactly the four expected items with their sections' categories. -/
theorem c7_multi_pair_section_parse :
    (parseText
      "支給項目\n本給 269000 通勤費補助 12860\n控除項目\n東友会費 300 共済会費 200").toOption.map
        (fun o => categorizeItems o.items) =
    some [⟨"本給", 269000, some "payment", some "payment"⟩,
          ⟨"通勤費補助", 12860, some "payment", some "payment"⟩,
          ⟨"東友会費", 300, some "deduction", some "deduction"⟩,
          ⟨"共済会費", 200, some "deduction", some "deduction"⟩] := rfl

end Payslip
